import Mathlib

/-!
Shallow embedding of `src/scripts/yaml_parser.py` (changelog structure
validator).  Lines are modelled as `List Char`; each Python regular
expression used with `re.match` becomes an executable Boolean matcher on
`List Char`; the parser's flag dictionary becomes the `ParserState`
structure; `raise_error` (which prints and exits) becomes `Except.error`
carrying the expected-construct message; the `parse_yaml` driver becomes a
fold over the list of input lines that pairs the first error with its
1-based line number and otherwise succeeds (the Python driver prints
"Parsed successfully!" whenever end of input is reached without an error).
-/

/-- Characters of a string literal, used to spell out the literal pieces of
the Python regular expressions. -/
def lit (s : String) : List Char := s.data

/-- Strip the literal `p` from the front of `s`; `some` of the remainder on
success, `none` if `p` is not a prefix of `s`. -/
def dropLit : List Char → List Char → Option (List Char)
  | [], s => some s
  | _ :: _, [] => none
  | p :: ps, c :: cs => if c == p then dropLit ps cs else none

/-- Python `\S` (non-whitespace), restricted to the ASCII whitespace set. -/
def isNonSpace (c : Char) : Bool :=
  !(c == ' ' || c == '\t' || c == '\n' || c == '\r' || c == '\x0b' || c == '\x0c')

/-- Source `major_vers_pattern = r'^(\d+):$'`. -/
def matchMajor (s : List Char) : Bool :=
  let ds := s.takeWhile Char.isDigit
  !ds.isEmpty && (s.drop ds.length == [':'])

/-- Source `task_pattern = r'^  - task: '` (prefix match). -/
def matchTaskPat (s : List Char) : Bool := (dropLit (lit "  - task: ") s).isSome

/-- Source `task_extended_pattern = r'^  - task: http(.+)$'`. -/
def matchTaskExt (s : List Char) : Bool :=
  match dropLit (lit "  - task: http") s with
  | some r => !r.isEmpty
  | none => false

/-- Source `release_pattern = r'^  - (release|prerelease): '` (prefix match). -/
def matchReleasePat (s : List Char) : Bool :=
  (dropLit (lit "  - release: ") s).isSome || (dropLit (lit "  - prerelease: ") s).isSome

/-- One or more characters, all digits (`(\d+)$`). -/
def digits1 (r : List Char) : Bool := !r.isEmpty && r.all Char.isDigit

/-- Source `release_extended_pattern = r'^  - (release|prerelease): (\d+)$'`. -/
def matchReleaseExt (s : List Char) : Bool :=
  (match dropLit (lit "  - release: ") s with
   | some r => digits1 r
   | none => false) ||
  (match dropLit (lit "  - prerelease: ") s with
   | some r => digits1 r
   | none => false)

/-- Strip one architecture name (`stm32|avr|at32`); the three literals are
pairwise non-prefix, so at most one strips. -/
def archName? (s : List Char) : Option (List Char) :=
  match dropLit (lit "stm32") s with
  | some r => some r
  | none =>
    match dropLit (lit "avr") s with
    | some r => some r
    | none => dropLit (lit "at32") s

/-- Source `(stm32|avr|at32)(, (stm32|avr|at32))*$`: a nonempty `, `-separated list
of architecture names consuming the whole remainder.  Each step consumes at
least five characters, so fuel `s.length + 1` is always sufficient. -/
def archSeq : Nat → List Char → Bool
  | 0, _ => false
  | fuel + 1, s =>
    match archName? s with
    | none => false
    | some [] => true
    | some r =>
      match dropLit (lit ", ") r with
      | some r2 => archSeq fuel r2
      | none => false

/-- Source `arch_pattern = r'^    arch: (stm32|avr|at32)(, (stm32|avr|at32))*$'`. -/
def matchArch (s : List Char) : Bool :=
  match dropLit (lit "    arch: ") s with
  | some r => archSeq (r.length + 1) r
  | none => false

/-- Source `task_type_pattern = r'^    (feature|bug|internal|info): \|$'`: exactly
one of four literal lines. -/
def matchTaskType (s : List Char) : Bool :=
  s == lit "    feature: |" || s == lit "    bug: |" ||
    s == lit "    internal: |" || s == lit "    info: |"

/-- Source `description_initial_pattern = r'^      \S(.*)'`. -/
def matchDescInit (s : List Char) : Bool :=
  match dropLit (lit "      ") s with
  | some (c :: _) => isNonSpace c
  | _ => false

/-- Source `description_pattern = r'^      (.*)'`. -/
def matchDescCont (s : List Char) : Bool := (dropLit (lit "      ") s).isSome

/-- Source `separator_pattern = r'^$'`. -/
def matchSep (s : List Char) : Bool := s.isEmpty

/-- Source `date_pattern = r'^    date: \d{2}\.\d{2}\.\d{2}$'`. -/
def matchDate (s : List Char) : Bool :=
  match dropLit (lit "    date: ") s with
  | some [d1, d2, p1, m1, m2, p2, y1, y2] =>
    d1.isDigit && d2.isDigit && p1 == '.' && m1.isDigit && m2.isDigit &&
      p2 == '.' && y1.isDigit && y2.isDigit
  | _ => false

/-- Source `( \[\])*$`: zero or more copies of the three-character block ` []`
consuming the whole remainder.  Fuel `s.length + 1` is always sufficient. -/
def bracketSeq : Nat → List Char → Bool
  | _, [] => true
  | 0, _ => false
  | fuel + 1, s =>
    match dropLit (lit " []") s with
    | some r => bracketSeq fuel r
    | none => false

/-- Source `dependencies_pattern = r'^    dependencies:( \[\])*$'`. -/
def matchDeps (s : List Char) : Bool :=
  match dropLit (lit "    dependencies:") s with
  | some r => bracketSeq (r.length + 1) r
  | none => false

/-- Source `base_pattern = r'^    base: (\d+)*$'`; `(\d+)*` accepts exactly the
(possibly empty) all-digit remainders. -/
def matchBase (s : List Char) : Bool :=
  match dropLit (lit "    base: ") s with
  | some r => r.all Char.isDigit
  | none => false

/-- Source `protocol_pattern = r'^    protocol: (\d+)$'`. -/
def matchProtocol (s : List Char) : Bool :=
  match dropLit (lit "    protocol: ") s with
  | some r => digits1 r
  | none => false

/-- Source `r'^    \S'`: exactly four leading spaces then a non-space. -/
def ind4 (s : List Char) : Bool :=
  match dropLit (lit "    ") s with
  | some (c :: _) => isNonSpace c
  | _ => false

/-- Source `r'^  \S'`: exactly two leading spaces then a non-space. -/
def ind2 (s : List Char) : Bool :=
  match dropLit (lit "  ") s with
  | some (c :: _) => isNonSpace c
  | _ => false

/-- The expected-construct messages passed to `raise_error`, one constructor
per distinct message string in the source. -/
inductive ErrMsg where
  | twoSpacesIndent
  | taskOrRelease
  | taskLink
  | releaseNumber
  | fourSpacesIndent
  | archField
  | typeField
  | descriptionLine
  | dateField
  | dependenciesField
  | protocolField
  deriving DecidableEq

/-- The exact message text each `raise_error` call site passes. -/
def render : ErrMsg → String
  | .twoSpacesIndent => "2 spaces `  ` before \x7btask,release\x7d"
  | .taskOrRelease => "`  - \x7btask,release\x7d:`"
  | .taskLink => "`  - task: <link-to-task>`"
  | .releaseNumber => "`  - release: <minor-version-number>`"
  | .fourSpacesIndent => "indent 4 spaces `    `"
  | .archField => "`    arch: \x7bstm32,avr,at32\x7d`"
  | .typeField => "`    \x7bfeature,bug,internal\x7d: |`"
  | .descriptionLine => "`      <description>`"
  | .dateField => "`    date: <dd.mm.yy>`"
  | .dependenciesField => "`    dependencies:`"
  | .protocolField => "`    protocol: <number-of-protocol>`"

/-- The parser's flag dictionary `self.state`. -/
structure ParserState where
  major_ver : Bool
  task : Bool
  arch : Bool
  type : Bool
  description : Bool
  release : Bool
  date : Bool
  dependencies : Bool
  base : Bool
  protocol : Bool
  deriving DecidableEq

/-- Source `reset_state`: every flag `False` (also the fresh state built by
`__init__`). -/
def reset_state : ParserState :=
  ⟨false, false, false, false, false, false, false, false, false, false⟩

/-- Source `reset_release_state`: clears the release-block flags, keeping
`major_ver`, `task` and `arch`. -/
def reset_release_state (s : ParserState) : ParserState :=
  { s with release := false, date := false, dependencies := false,
           base := false, protocol := false, description := false, type := false }

/-- Source `validate_initial`: always diagnoses (the first failing check wins,
since `raise_error` terminates the process). -/
def validate_initial (s : ParserState) (str : List Char) : Except ErrMsg ParserState :=
  if !ind2 str then .error .twoSpacesIndent
  else if !matchTaskPat str && !matchReleasePat str then .error .taskOrRelease
  else if matchTaskPat str then .error .taskLink
  else if matchReleasePat str then .error .releaseNumber
  else .ok s

/-- Source `parse_initial`. -/
def parse_initial (s : ParserState) (str : List Char) : Except ErrMsg ParserState :=
  if matchTaskExt str then .ok { s with task := true }
  else if matchReleaseExt str then .ok { s with release := true }
  else validate_initial s str

/-- Source `parse_task`, flattened along the Python control flow (each
`raise_error` exits, each `return` stops). -/
def parse_task (s : ParserState) (str : List Char) : Except ErrMsg ParserState :=
  if !ind4 str && !s.type && !matchSep str then .error .fourSpacesIndent
  else if matchArch str then .ok { s with arch := true }
  else if !s.arch then .error .archField
  else if matchTaskType str then .ok { s with type := true }
  else if !s.type then .error .typeField
  else if matchSep str && s.description then .ok reset_state
  else if matchDescInit str then .ok { s with description := true }
  else if s.description && matchDescCont str then .ok s
  else .error .descriptionLine

/-- The description tail of `parse_release`, reading the state left after
the optional separator-triggered `reset_release_state` (the Python code
calls `reset_release_state` without returning, so the following `type` test
reads the already-reset flags). -/
def release_tail (s1 : ParserState) (str : List Char) : Except ErrMsg ParserState :=
  if s1.type then
    if matchSep str && s1.description then .ok (reset_release_state s1)
    else if matchDescInit str then .ok { s1 with description := true }
    else if s1.description && matchDescCont str then .ok s1
    else .error .descriptionLine
  else .ok s1

/-- Source `parse_release`, flattened along the Python control flow. -/
def parse_release (s : ParserState) (str : List Char) : Except ErrMsg ParserState :=
  if !ind4 str && !s.type && !matchSep str then .error .fourSpacesIndent
  else if matchDate str then .ok { s with date := true }
  else if !s.date then .error .dateField
  else if matchDeps str then .ok { s with dependencies := true }
  else if matchBase str then .ok { s with base := true }
  else if !s.dependencies then .error .dependenciesField
  else if matchProtocol str then .ok { s with protocol := true }
  else if !s.protocol then .error .protocolField
  else if matchTaskType str then .ok { s with type := true }
  else release_tail (if matchSep str then reset_release_state s else s) str

/-- Source `parse_line`: major-version lines are consumed first, then dispatch on
the `task`/`release` flags. -/
def parse_line (s : ParserState) (str : List Char) : Except ErrMsg ParserState :=
  if matchMajor str then .ok { s with major_ver := true }
  else if !s.task && !s.release then parse_initial s str
  else if s.task then parse_task s str
  else parse_release s str

/-- The driver loop of `parse_yaml`: feed the lines one by one, numbering
from `n`; the first error is paired with its line number. -/
def runLines : ParserState → Nat → List (List Char) → Except (Nat × ErrMsg) ParserState
  | s, _, [] => .ok s
  | s, n, l :: ls =>
    match parse_line s l with
    | .error e => .error (n, e)
    | .ok s2 => runLines s2 (n + 1) ls

/-- Source `parse_yaml` on a finite input stream: start from the fresh state with
line numbers from 1. -/
def parse_yaml (input : List (List Char)) : Except (Nat × ErrMsg) ParserState :=
  runLines reset_state 1 input

/-- The Python driver prints "Parsed successfully!" exactly when the loop
reaches end of input without `raise_error` having exited. -/
def printsSuccess (input : List (List Char)) : Bool :=
  match parse_yaml input with
  | .ok _ => true
  | .error _ => false

example : parse_yaml [lit "1:", lit "  - task: http://tracker/123",
    lit "    arch: stm32, avr", lit "    feature: |", lit "      adds X", []] =
    .ok reset_state := by rfl

example : parse_yaml [lit "1:", lit "  - release: 7", lit "    date: 01.02.24",
    lit "    dependencies: []", lit "    protocol: 3", []] =
    .ok ⟨true, false, false, false, false, false, false, false, false, false⟩ := by rfl

example : parse_yaml [lit "1:", lit "  - release: 7", lit "    protocol: 3",
    lit "    date: 01.02.24"] = .error (3, .dateField) := by rfl

example : parse_yaml [lit "  - task: not-a-link"] = .error (1, .taskLink) := by rfl

example : matchDeps (lit "    dependencies: [] []") = true := by decide

/-! ## Structural lemmas about the matchers -/

theorem dropLit_some {p s r : List Char} (h : dropLit p s = some r) : s = p ++ r := by
  induction p generalizing s with
  | nil => simpa [dropLit] using h
  | cons a as ih =>
    cases s with
    | nil => simp [dropLit] at h
    | cons c cs =>
      simp only [dropLit] at h
      split at h
      · rename_i hc
        have hca : c = a := by simpa using hc
        subst hca
        simpa [List.cons_append] using ih h
      · simp at h

theorem dropLit_of_append (p r : List Char) : dropLit p (p ++ r) = some r := by
  induction p with
  | nil => simp [dropLit]
  | cons a as ih => simp [dropLit, ih]

theorem matchTaskExt_struct {s : List Char} (h : matchTaskExt s = true) :
    ∃ r, s = lit "  - task: http" ++ r ∧ r ≠ [] := by
  unfold matchTaskExt at h
  cases hd : dropLit (lit "  - task: http") s with
  | none => rw [hd] at h; simp at h
  | some r =>
    rw [hd] at h
    exact ⟨r, dropLit_some hd, by simpa using h⟩

theorem matchTaskPat_struct {s : List Char} (h : matchTaskPat s = true) :
    ∃ r, s = lit "  - task: " ++ r := by
  unfold matchTaskPat at h
  cases hd : dropLit (lit "  - task: ") s with
  | none => rw [hd] at h; simp at h
  | some r => exact ⟨r, dropLit_some hd⟩

theorem matchArch_struct {s : List Char} (h : matchArch s = true) :
    ∃ r, s = lit "    arch: " ++ r := by
  unfold matchArch at h
  cases hd : dropLit (lit "    arch: ") s with
  | none => rw [hd] at h; simp at h
  | some r => exact ⟨r, dropLit_some hd⟩

theorem matchTaskType_cases {s : List Char} (h : matchTaskType s = true) :
    s = lit "    feature: |" ∨ s = lit "    bug: |" ∨
      s = lit "    internal: |" ∨ s = lit "    info: |" := by
  unfold matchTaskType at h
  simp only [Bool.or_eq_true, beq_iff_eq] at h
  tauto

theorem matchDescInit_struct {s : List Char} (h : matchDescInit s = true) :
    ∃ c cs, s = lit "      " ++ c :: cs ∧ isNonSpace c = true := by
  unfold matchDescInit at h
  cases hd : dropLit (lit "      ") s with
  | none => rw [hd] at h; simp at h
  | some r =>
    cases r with
    | nil => rw [hd] at h; simp at h
    | cons c cs =>
      rw [hd] at h
      exact ⟨c, cs, dropLit_some hd, h⟩

theorem matchDescCont_struct {s : List Char} (h : matchDescCont s = true) :
    ∃ r, s = lit "      " ++ r := by
  unfold matchDescCont at h
  cases hd : dropLit (lit "      ") s with
  | none => rw [hd] at h; simp at h
  | some r => exact ⟨r, dropLit_some hd⟩

theorem matchDescInit_cont {s : List Char} (h : matchDescInit s = true) :
    matchDescCont s = true := by
  obtain ⟨c, cs, rfl, _⟩ := matchDescInit_struct h
  simp [matchDescCont, dropLit_of_append]

theorem matchDate_struct {s : List Char} (h : matchDate s = true) :
    ∃ r, s = lit "    date: " ++ r := by
  unfold matchDate at h
  cases hd : dropLit (lit "    date: ") s with
  | none => rw [hd] at h; simp at h
  | some r => exact ⟨r, dropLit_some hd⟩

theorem matchDeps_struct {s : List Char} (h : matchDeps s = true) :
    ∃ r, s = lit "    dependencies:" ++ r := by
  unfold matchDeps at h
  cases hd : dropLit (lit "    dependencies:") s with
  | none => rw [hd] at h; simp at h
  | some r => exact ⟨r, dropLit_some hd⟩

theorem matchBase_struct {s : List Char} (h : matchBase s = true) :
    ∃ r, s = lit "    base: " ++ r := by
  unfold matchBase at h
  cases hd : dropLit (lit "    base: ") s with
  | none => rw [hd] at h; simp at h
  | some r => exact ⟨r, dropLit_some hd⟩

theorem matchProtocol_struct {s : List Char} (h : matchProtocol s = true) :
    ∃ r, s = lit "    protocol: " ++ r := by
  unfold matchProtocol at h
  cases hd : dropLit (lit "    protocol: ") s with
  | none => rw [hd] at h; simp at h
  | some r => exact ⟨r, dropLit_some hd⟩

theorem matchReleaseExt_struct {s : List Char} (h : matchReleaseExt s = true) :
    (∃ r, s = lit "  - release: " ++ r) ∨ (∃ r, s = lit "  - prerelease: " ++ r) := by
  unfold matchReleaseExt at h
  simp only [Bool.or_eq_true] at h
  rcases h with h | h
  · cases hd : dropLit (lit "  - release: ") s with
    | none => rw [hd] at h; simp at h
    | some r => exact Or.inl ⟨r, dropLit_some hd⟩
  · cases hd : dropLit (lit "  - prerelease: ") s with
    | none => rw [hd] at h; simp at h
    | some r => exact Or.inr ⟨r, dropLit_some hd⟩

/-! ## One-line evaluation lemmas for `parse_line` -/

theorem runLines_cons_ok {s s2 : ParserState} {l : List Char} {ls : List (List Char)} {n : Nat}
    (h : parse_line s l = .ok s2) : runLines s n (l :: ls) = runLines s2 (n + 1) ls := by
  simp [runLines, h]

theorem runLines_cons_err {s : ParserState} {l : List Char} {ls : List (List Char)} {n : Nat}
    {e : ErrMsg} (h : parse_line s l = .error e) : runLines s n (l :: ls) = .error (n, e) := by
  simp [runLines, h]

theorem setDescription_eq {s : ParserState} (h : s.description = true) :
    { s with description := true } = s := by
  cases s
  simp_all

/-- Opening a task block from `Undetermined`. -/
theorem step_decl_task {s : ParserState} {l : List Char} (hT : s.task = false)
    (hR : s.release = false) (h : matchTaskExt l = true) :
    parse_line s l = .ok { s with task := true } := by
  obtain ⟨r, rfl, -⟩ := matchTaskExt_struct h
  have hm : matchMajor (lit "  - task: http" ++ r) = false := rfl
  simp [parse_line, parse_initial, hm, hT, hR, h]

/-- The architecture line in a task block. -/
theorem step_arch {s : ParserState} {l : List Char} (hT : s.task = true)
    (h : matchArch l = true) : parse_line s l = .ok { s with arch := true } := by
  obtain ⟨r, rfl⟩ := matchArch_struct h
  have hm : matchMajor (lit "    arch: " ++ r) = false := rfl
  have hi : ind4 (lit "    arch: " ++ r) = true := rfl
  simp [parse_line, parse_task, hm, hi, hT, h]

/-- The type line in a task block. -/
theorem step_type_task {s : ParserState} {l : List Char} (hT : s.task = true)
    (hA : s.arch = true) (h : matchTaskType l = true) :
    parse_line s l = .ok { s with type := true } := by
  rcases matchTaskType_cases h with rfl | rfl | rfl | rfl <;>
    simp +decide [parse_line, parse_task, hT, hA]

/-- The first description line in a task block. -/
theorem step_descInit_task {s : ParserState} {l : List Char} (hT : s.task = true)
    (hA : s.arch = true) (hTy : s.type = true) (h : matchDescInit l = true) :
    parse_line s l = .ok { s with description := true } := by
  obtain ⟨c, cs, rfl, -⟩ := matchDescInit_struct h
  have hm : matchMajor (lit "      " ++ c :: cs) = false := rfl
  have ha : matchArch (lit "      " ++ c :: cs) = false := rfl
  have hty : matchTaskType (lit "      " ++ c :: cs) = false := rfl
  have hsep : matchSep (lit "      " ++ c :: cs) = false := rfl
  simp [parse_line, parse_task, hm, ha, hty, hsep, hT, hA, hTy, h]

/-- A description line while the task description is open keeps the state. -/
theorem step_descCont_task {s : ParserState} {l : List Char} (hT : s.task = true)
    (hA : s.arch = true) (hTy : s.type = true) (hD : s.description = true)
    (h : matchDescCont l = true) : parse_line s l = .ok s := by
  obtain ⟨r, rfl⟩ := matchDescCont_struct h
  have hm : matchMajor (lit "      " ++ r) = false := rfl
  have ha : matchArch (lit "      " ++ r) = false := rfl
  have hty : matchTaskType (lit "      " ++ r) = false := rfl
  have hsep : matchSep (lit "      " ++ r) = false := rfl
  by_cases hdi : matchDescInit (lit "      " ++ r) = true
  · rw [show parse_line s (lit "      " ++ r) =
        Except.ok { s with description := true } by
      simp [parse_line, parse_task, hm, ha, hty, hsep, hT, hA, hTy, hdi]]
    rw [setDescription_eq hD]
  · simp [parse_line, parse_task, hm, ha, hty, hsep, hT, hA, hTy, hdi, hD, h]

/-- A blank line closes a task block whose description has started. -/
theorem step_sep_task {s : ParserState} (hT : s.task = true) (hA : s.arch = true)
    (hTy : s.type = true) (hD : s.description = true) :
    parse_line s [] = .ok reset_state := by
  simp +decide [parse_line, parse_task, hT, hA, hTy, hD]

/-- Opening a release block from `Undetermined`. -/
theorem step_decl_release {s : ParserState} {l : List Char} (hT : s.task = false)
    (hR : s.release = false) (h : matchReleaseExt l = true) :
    parse_line s l = .ok { s with release := true } := by
  rcases matchReleaseExt_struct h with ⟨r, rfl⟩ | ⟨r, rfl⟩
  · have hm : matchMajor (lit "  - release: " ++ r) = false := rfl
    have hte : matchTaskExt (lit "  - release: " ++ r) = false := rfl
    simp [parse_line, parse_initial, hm, hte, hT, hR, h]
  · have hm : matchMajor (lit "  - prerelease: " ++ r) = false := rfl
    have hte : matchTaskExt (lit "  - prerelease: " ++ r) = false := rfl
    simp [parse_line, parse_initial, hm, hte, hT, hR, h]

/-- The date line in a release block. -/
theorem step_date {s : ParserState} {l : List Char} (hT : s.task = false)
    (hR : s.release = true) (h : matchDate l = true) :
    parse_line s l = .ok { s with date := true } := by
  obtain ⟨r, rfl⟩ := matchDate_struct h
  have hm : matchMajor (lit "    date: " ++ r) = false := rfl
  have hi : ind4 (lit "    date: " ++ r) = true := rfl
  simp [parse_line, parse_release, hm, hi, hT, hR, h]

/-- The dependencies line in a release block with the date satisfied. -/
theorem step_deps {s : ParserState} {l : List Char} (hT : s.task = false)
    (hR : s.release = true) (hDa : s.date = true) (h : matchDeps l = true) :
    parse_line s l = .ok { s with dependencies := true } := by
  obtain ⟨r, rfl⟩ := matchDeps_struct h
  have hm : matchMajor (lit "    dependencies:" ++ r) = false := rfl
  have hi : ind4 (lit "    dependencies:" ++ r) = true := rfl
  have hd : matchDate (lit "    dependencies:" ++ r) = false := rfl
  simp [parse_line, parse_release, hm, hi, hd, hT, hR, hDa, h]

/-- A base line in a release block with the date satisfied: accepted
unconditionally, whatever the dependencies or base flags already say. -/
theorem step_base {s : ParserState} {l : List Char} (hT : s.task = false)
    (hR : s.release = true) (hDa : s.date = true) (h : matchBase l = true) :
    parse_line s l = .ok { s with base := true } := by
  obtain ⟨r, rfl⟩ := matchBase_struct h
  have hm : matchMajor (lit "    base: " ++ r) = false := rfl
  have hi : ind4 (lit "    base: " ++ r) = true := rfl
  have hd : matchDate (lit "    base: " ++ r) = false := rfl
  have hdp : matchDeps (lit "    base: " ++ r) = false := rfl
  simp [parse_line, parse_release, hm, hi, hd, hdp, hT, hR, hDa, h]

/-- The protocol line in a release block with date and dependencies satisfied. -/
theorem step_protocol {s : ParserState} {l : List Char} (hT : s.task = false)
    (hR : s.release = true) (hDa : s.date = true) (hDp : s.dependencies = true)
    (h : matchProtocol l = true) : parse_line s l = .ok { s with protocol := true } := by
  obtain ⟨r, rfl⟩ := matchProtocol_struct h
  have hm : matchMajor (lit "    protocol: " ++ r) = false := rfl
  have hi : ind4 (lit "    protocol: " ++ r) = true := rfl
  have hd : matchDate (lit "    protocol: " ++ r) = false := rfl
  have hdp : matchDeps (lit "    protocol: " ++ r) = false := rfl
  have hb : matchBase (lit "    protocol: " ++ r) = false := rfl
  simp [parse_line, parse_release, hm, hi, hd, hdp, hb, hT, hR, hDa, hDp, h]

/-- The optional type line after the protocol line of a release block. -/
theorem step_type_release {s : ParserState} {l : List Char} (hT : s.task = false)
    (hR : s.release = true) (hDa : s.date = true) (hDp : s.dependencies = true)
    (hP : s.protocol = true) (h : matchTaskType l = true) :
    parse_line s l = .ok { s with type := true } := by
  rcases matchTaskType_cases h with rfl | rfl | rfl | rfl <;>
    simp +decide [parse_line, parse_release, hT, hR, hDa, hDp, hP]

/-- The first description line of a release block's trailing description. -/
theorem step_descInit_release {s : ParserState} {l : List Char} (hT : s.task = false)
    (hR : s.release = true) (hDa : s.date = true) (hDp : s.dependencies = true)
    (hP : s.protocol = true) (hTy : s.type = true) (h : matchDescInit l = true) :
    parse_line s l = .ok { s with description := true } := by
  obtain ⟨c, cs, rfl, -⟩ := matchDescInit_struct h
  have hm : matchMajor (lit "      " ++ c :: cs) = false := rfl
  have hd : matchDate (lit "      " ++ c :: cs) = false := rfl
  have hdp : matchDeps (lit "      " ++ c :: cs) = false := rfl
  have hb : matchBase (lit "      " ++ c :: cs) = false := rfl
  have hp : matchProtocol (lit "      " ++ c :: cs) = false := rfl
  have hty : matchTaskType (lit "      " ++ c :: cs) = false := rfl
  have hsep : matchSep (lit "      " ++ c :: cs) = false := rfl
  simp [parse_line, parse_release, release_tail, hm, hd, hdp, hb, hp, hty, hsep,
    hT, hR, hDa, hDp, hP, hTy, h]

/-- A description line while the release description is open keeps the state. -/
theorem step_descCont_release {s : ParserState} {l : List Char} (hT : s.task = false)
    (hR : s.release = true) (hDa : s.date = true) (hDp : s.dependencies = true)
    (hP : s.protocol = true) (hTy : s.type = true) (hD : s.description = true)
    (h : matchDescCont l = true) : parse_line s l = .ok s := by
  obtain ⟨r, rfl⟩ := matchDescCont_struct h
  have hm : matchMajor (lit "      " ++ r) = false := rfl
  have hd : matchDate (lit "      " ++ r) = false := rfl
  have hdp : matchDeps (lit "      " ++ r) = false := rfl
  have hb : matchBase (lit "      " ++ r) = false := rfl
  have hp : matchProtocol (lit "      " ++ r) = false := rfl
  have hty : matchTaskType (lit "      " ++ r) = false := rfl
  have hsep : matchSep (lit "      " ++ r) = false := rfl
  by_cases hdi : matchDescInit (lit "      " ++ r) = true
  · rw [show parse_line s (lit "      " ++ r) =
        Except.ok { s with description := true } by
      simp [parse_line, parse_release, release_tail, hm, hd, hdp, hb, hp, hty, hsep,
        hT, hR, hDa, hDp, hP, hTy, hdi]]
    rw [setDescription_eq hD]
  · simp [parse_line, parse_release, release_tail, hm, hd, hdp, hb, hp, hty, hsep,
      hT, hR, hDa, hDp, hP, hTy, hdi, hD, h]

/-- A blank line after the protocol line closes the release block (with or
without an open trailing description). -/
theorem step_sep_release {s : ParserState} (hT : s.task = false) (hR : s.release = true)
    (hDa : s.date = true) (hDp : s.dependencies = true) (hP : s.protocol = true) :
    parse_line s [] = .ok (reset_release_state s) := by
  by_cases hTy : s.type = true
  · simp +decide [parse_line, parse_release, release_tail, reset_release_state,
      hT, hR, hDa, hDp, hP, hTy]
  · simp at hTy
    simp +decide [parse_line, parse_release, release_tail, reset_release_state,
      hT, hR, hDa, hDp, hP, hTy]

/-- A run of description lines inside an open task description leaves the
state untouched. -/
theorem runLines_descLoop_task {s : ParserState} (hT : s.task = true) (hA : s.arch = true)
    (hTy : s.type = true) (hD : s.description = true) (ds : List (List Char))
    (h : ∀ d ∈ ds, matchDescCont d = true) (n : Nat) (rest : List (List Char)) :
    runLines s n (ds ++ rest) = runLines s (n + ds.length) rest := by
  induction ds generalizing n with
  | nil => simp
  | cons d ds ih =>
    simp only [List.cons_append, List.length_cons]
    rw [runLines_cons_ok (step_descCont_task hT hA hTy hD (h d (by simp)))]
    rw [ih (fun x hx => h x (by simp [hx])) (n + 1)]
    congr 1
    omega

/-- A run of description lines inside an open release description leaves the
state untouched. -/
theorem runLines_descLoop_release {s : ParserState} (hT : s.task = false)
    (hR : s.release = true) (hDa : s.date = true) (hDp : s.dependencies = true)
    (hP : s.protocol = true) (hTy : s.type = true) (hD : s.description = true)
    (ds : List (List Char)) (h : ∀ d ∈ ds, matchDescCont d = true) (n : Nat)
    (rest : List (List Char)) :
    runLines s n (ds ++ rest) = runLines s (n + ds.length) rest := by
  induction ds generalizing n with
  | nil => simp
  | cons d ds ih =>
    simp only [List.cons_append, List.length_cons]
    rw [runLines_cons_ok (step_descCont_release hT hR hDa hDp hP hTy hD (h d (by simp)))]
    rw [ih (fun x hx => h x (by simp [hx])) (n + 1)]
    congr 1
    omega

/-- C4: starting from `Undetermined`, a well-formed task block — a
well-formed task declaration, an architecture line, a type line, a first
description line, further description lines, and a blank terminator — is
accepted line by line with no diagnostic, and after the blank terminator the
parser is back in `Undetermined` (every flag reset). -/
theorem c4_wellformed_task_block_accepted (s : ParserState) (decl archL typeL d0 : List Char)
    (ds : List (List Char)) (n : Nat) (hT : s.task = false) (hR : s.release = false)
    (h1 : matchTaskExt decl = true) (h2 : matchArch archL = true)
    (h3 : matchTaskType typeL = true) (h4 : matchDescInit d0 = true)
    (h5 : ∀ d ∈ ds, matchDescCont d = true) :
    runLines s n ([decl, archL, typeL, d0] ++ ds ++ [[]]) = .ok reset_state := by
  simp only [List.cons_append, List.nil_append]
  rw [runLines_cons_ok (step_decl_task hT hR h1)]
  rw [runLines_cons_ok (step_arch rfl h2)]
  rw [runLines_cons_ok (step_type_task rfl rfl h3)]
  rw [runLines_cons_ok (step_descInit_task rfl rfl rfl h4)]
  rw [runLines_descLoop_task rfl rfl rfl rfl ds h5]
  rw [runLines_cons_ok (step_sep_task rfl rfl rfl rfl)]
  rfl

/-- Witness for C4 at the spec's end-to-end example 1: the six-line input
validates successfully, and the general theorem applies to its task block. -/
theorem c4_witness :
    parse_yaml [lit "1:", lit "  - task: http://tracker/123", lit "    arch: stm32, avr",
      lit "    feature: |", lit "      adds X", []] = .ok reset_state ∧
    runLines ⟨true, false, false, false, false, false, false, false, false, false⟩ 2
      [lit "  - task: http://tracker/123", lit "    arch: stm32, avr",
        lit "    feature: |", lit "      adds X", []] = .ok reset_state :=
  ⟨by rfl,
    c4_wellformed_task_block_accepted
      ⟨true, false, false, false, false, false, false, false, false, false⟩
      (lit "  - task: http://tracker/123") (lit "    arch: stm32, avr")
      (lit "    feature: |") (lit "      adds X") [] 2 rfl rfl
      (by decide) (by decide) (by decide) (by decide) (by simp)⟩

/-- C5: starting from `Undetermined` (no stale release-block flags), a
release block with the mandatory fields in order — date, dependencies,
protocol, blank terminator — is accepted with no diagnostic and returns the
parser to the starting `Undetermined` state; inserting an optional base line
between date and dependencies is also accepted; appending an optional
trailing type line plus a description (first line, continuations, blank
terminator) is also accepted. -/
theorem c5_wellformed_release_block_accepted (s : ParserState)
    (decl dateL baseL depsL protL typeL d0 : List Char) (ds : List (List Char)) (n : Nat)
    (hT : s.task = false) (hR : s.release = false) (hTy : s.type = false)
    (hD : s.description = false) (hDa : s.date = false) (hDe : s.dependencies = false)
    (hB : s.base = false) (hP : s.protocol = false)
    (h1 : matchReleaseExt decl = true) (h2 : matchDate dateL = true)
    (h3 : matchBase baseL = true) (h4 : matchDeps depsL = true)
    (h5 : matchProtocol protL = true) (h6 : matchTaskType typeL = true)
    (h7 : matchDescInit d0 = true) (h8 : ∀ d ∈ ds, matchDescCont d = true) :
    runLines s n [decl, dateL, depsL, protL, []] = .ok s ∧
    runLines s n [decl, dateL, baseL, depsL, protL, []] = .ok s ∧
    runLines s n ([decl, dateL, depsL, protL, typeL, d0] ++ ds ++ [[]]) = .ok s := by
  refine ⟨?_, ?_, ?_⟩
  · rw [runLines_cons_ok (step_decl_release hT hR h1)]
    rw [runLines_cons_ok (step_date (by exact hT) (by rfl) h2)]
    rw [runLines_cons_ok (step_deps (by exact hT) (by rfl) (by rfl) h4)]
    rw [runLines_cons_ok (step_protocol (by exact hT) (by rfl) (by rfl) (by rfl) h5)]
    rw [runLines_cons_ok (step_sep_release (by exact hT) (by rfl) (by rfl) (by rfl) (by rfl))]
    simp only [runLines]
    cases s
    simp_all [reset_release_state]
  · rw [runLines_cons_ok (step_decl_release hT hR h1)]
    rw [runLines_cons_ok (step_date (by exact hT) (by rfl) h2)]
    rw [runLines_cons_ok (step_base (by exact hT) (by rfl) (by rfl) h3)]
    rw [runLines_cons_ok (step_deps (by exact hT) (by rfl) (by rfl) h4)]
    rw [runLines_cons_ok (step_protocol (by exact hT) (by rfl) (by rfl) (by rfl) h5)]
    rw [runLines_cons_ok (step_sep_release (by exact hT) (by rfl) (by rfl) (by rfl) (by rfl))]
    simp only [runLines]
    cases s
    simp_all [reset_release_state]
  · simp only [List.cons_append, List.nil_append]
    rw [runLines_cons_ok (step_decl_release hT hR h1)]
    rw [runLines_cons_ok (step_date (by exact hT) (by rfl) h2)]
    rw [runLines_cons_ok (step_deps (by exact hT) (by rfl) (by rfl) h4)]
    rw [runLines_cons_ok (step_protocol (by exact hT) (by rfl) (by rfl) (by rfl) h5)]
    rw [runLines_cons_ok (step_type_release (by exact hT) (by rfl) (by rfl) (by rfl) (by rfl) h6)]
    rw [runLines_cons_ok (step_descInit_release (by exact hT) (by rfl) (by rfl) (by rfl) (by rfl) (by rfl) h7)]
    rw [runLines_descLoop_release (by exact hT) (by rfl) (by rfl) (by rfl) (by rfl) (by rfl) (by rfl) ds h8]
    rw [runLines_cons_ok (step_sep_release (by exact hT) (by rfl) (by rfl) (by rfl) (by rfl))]
    simp only [runLines]
    cases s
    simp_all [reset_release_state]

/-- Witness for C5 at the spec's end-to-end example 2 and its base/description
variants: the minimal release block, the base-inserted variant, and the
type-plus-description variant are all accepted. -/
theorem c5_witness :
    parse_yaml [lit "1:", lit "  - release: 7", lit "    date: 01.02.24",
      lit "    dependencies: []", lit "    protocol: 3", []] =
      .ok ⟨true, false, false, false, false, false, false, false, false, false⟩ ∧
    (runLines ⟨true, false, false, false, false, false, false, false, false, false⟩ 2
      [lit "  - release: 7", lit "    date: 01.02.24", lit "    dependencies: []",
        lit "    protocol: 3", []] =
      .ok ⟨true, false, false, false, false, false, false, false, false, false⟩ ∧
    runLines ⟨true, false, false, false, false, false, false, false, false, false⟩ 2
      [lit "  - release: 7", lit "    date: 01.02.24", lit "    base: 5",
        lit "    dependencies: []", lit "    protocol: 3", []] =
      .ok ⟨true, false, false, false, false, false, false, false, false, false⟩ ∧
    runLines ⟨true, false, false, false, false, false, false, false, false, false⟩ 2
      [lit "  - release: 7", lit "    date: 01.02.24", lit "    dependencies: []",
        lit "    protocol: 3", lit "    info: |", lit "      first stable cut", []] =
      .ok ⟨true, false, false, false, false, false, false, false, false, false⟩) :=
  ⟨by rfl,
    c5_wellformed_release_block_accepted
      ⟨true, false, false, false, false, false, false, false, false, false⟩
      (lit "  - release: 7") (lit "    date: 01.02.24") (lit "    base: 5")
      (lit "    dependencies: []") (lit "    protocol: 3") (lit "    info: |")
      (lit "      first stable cut") [] 2 rfl rfl rfl rfl rfl rfl rfl rfl
      (by decide) (by decide) (by decide) (by decide) (by decide) (by decide)
      (by decide) (by simp)⟩

/-- C1: evaluating the driver at a stream that ends while a task block is
open (`1:`, then a task declaration, then end of stream): the run completes
with `ok`, so the Python driver prints "Parsed successfully!", yet the final
state still has the `task` flag set — the block was never closed.  The code
therefore reports success on a truncated block, contradicting the claim. -/
theorem c1_success_reported_with_open_block :
    parse_yaml [lit "1:", lit "  - task: http://x"] =
      .ok ⟨true, true, false, false, false, false, false, false, false, false⟩ ∧
    printsSuccess [lit "1:", lit "  - task: http://x"] = true ∧
    (⟨true, true, false, false, false, false, false, false, false, false⟩ : ParserState).task
      = true :=
  ⟨by rfl, by rfl, by rfl⟩

/-- C3: swapped mandatory release fields always diagnose at the out-of-order
line: the spec's end-to-end example 3 fails at line 3 demanding the date
field; in general a protocol line arriving while the date is unsatisfied
diagnoses the missing date at that line, a dependencies line arriving while
the date is unsatisfied diagnoses the missing date at that line, and a
protocol line arriving after the date but while dependencies are unsatisfied
diagnoses the missing dependencies at that line. -/
theorem c3_swapped_fields_diagnosed :
    parse_yaml [lit "1:", lit "  - release: 7", lit "    protocol: 3",
      lit "    date: 01.02.24"] = .error (3, .dateField) ∧
    (∀ (s : ParserState) (l : List Char) (rest : List (List Char)) (n : Nat),
      s.task = false → s.release = true → s.date = false → matchProtocol l = true →
      runLines s n (l :: rest) = .error (n, .dateField)) ∧
    (∀ (s : ParserState) (l : List Char) (rest : List (List Char)) (n : Nat),
      s.task = false → s.release = true → s.date = false → matchDeps l = true →
      runLines s n (l :: rest) = .error (n, .dateField)) ∧
    (∀ (s : ParserState) (l : List Char) (rest : List (List Char)) (n : Nat),
      s.task = false → s.release = true → s.date = true → s.dependencies = false →
      matchProtocol l = true → runLines s n (l :: rest) = .error (n, .dependenciesField)) := by
  refine ⟨by rfl, ?_, ?_, ?_⟩
  · intro s l rest n hT hR hDa h
    obtain ⟨r, rfl⟩ := matchProtocol_struct h
    have hm : matchMajor (lit "    protocol: " ++ r) = false := rfl
    have hi : ind4 (lit "    protocol: " ++ r) = true := rfl
    have hd : matchDate (lit "    protocol: " ++ r) = false := rfl
    exact runLines_cons_err (by simp [parse_line, parse_release, hm, hi, hd, hT, hR, hDa])
  · intro s l rest n hT hR hDa h
    obtain ⟨r, rfl⟩ := matchDeps_struct h
    have hm : matchMajor (lit "    dependencies:" ++ r) = false := rfl
    have hi : ind4 (lit "    dependencies:" ++ r) = true := rfl
    have hd : matchDate (lit "    dependencies:" ++ r) = false := rfl
    exact runLines_cons_err (by simp [parse_line, parse_release, hm, hi, hd, hT, hR, hDa])
  · intro s l rest n hT hR hDa hDe h
    obtain ⟨r, rfl⟩ := matchProtocol_struct h
    have hm : matchMajor (lit "    protocol: " ++ r) = false := rfl
    have hi : ind4 (lit "    protocol: " ++ r) = true := rfl
    have hd : matchDate (lit "    protocol: " ++ r) = false := rfl
    have hdp : matchDeps (lit "    protocol: " ++ r) = false := rfl
    have hb : matchBase (lit "    protocol: " ++ r) = false := rfl
    exact runLines_cons_err
      (by simp [parse_line, parse_release, hm, hi, hd, hdp, hb, hT, hR, hDa, hDe])

/-- Witness for C3: the three general parts applied to the concrete
`    protocol: 3` line in a just-opened release block (no date yet), the
concrete `    dependencies: []` line in a just-opened release block (no date
yet), and the concrete `    protocol: 3` line in a release block with only
the date satisfied. -/
theorem c3_witness :
    runLines ⟨true, false, false, false, false, true, false, false, false, false⟩ 3
      [lit "    protocol: 3"] = .error (3, .dateField) ∧
    runLines ⟨true, false, false, false, false, true, false, false, false, false⟩ 3
      [lit "    dependencies: []"] = .error (3, .dateField) ∧
    runLines ⟨true, false, false, false, false, true, true, false, false, false⟩ 4
      [lit "    protocol: 3"] = .error (4, .dependenciesField) :=
  ⟨c3_swapped_fields_diagnosed.2.1
      ⟨true, false, false, false, false, true, false, false, false, false⟩
      (lit "    protocol: 3") [] 3 rfl rfl rfl (by decide),
    c3_swapped_fields_diagnosed.2.2.1
      ⟨true, false, false, false, false, true, false, false, false, false⟩
      (lit "    dependencies: []") [] 3 rfl rfl rfl (by decide),
    c3_swapped_fields_diagnosed.2.2.2
      ⟨true, false, false, false, false, true, true, false, false, false⟩
      (lit "    protocol: 3") [] 4 rfl rfl rfl rfl (by decide)⟩

/-- C9: in `Undetermined` mode, a line that matches the task-declaration
prefix but whose value is not http-shaped gets the targeted diagnostic naming
the `- task: <link-to-task>` shape at that exact line, and that diagnostic is
distinct from the generic one demanding a task/release declaration. -/
theorem c9_malformed_task_targeted_diagnostic (s : ParserState) (l : List Char)
    (rest : List (List Char)) (n : Nat) (hT : s.task = false) (hR : s.release = false)
    (hPat : matchTaskPat l = true) (hExt : matchTaskExt l = false) :
    runLines s n (l :: rest) = .error (n, .taskLink) ∧
      ErrMsg.taskLink ≠ ErrMsg.taskOrRelease := by
  obtain ⟨r, rfl⟩ := matchTaskPat_struct hPat
  have hm : matchMajor (lit "  - task: " ++ r) = false := rfl
  have hre : matchReleaseExt (lit "  - task: " ++ r) = false := rfl
  have hi2 : ind2 (lit "  - task: " ++ r) = true := rfl
  have hrp : matchReleasePat (lit "  - task: " ++ r) = false := rfl
  refine ⟨runLines_cons_err ?_, by decide⟩
  simp [parse_line, parse_initial, validate_initial, hm, hre, hi2, hrp, hPat, hExt, hT, hR]

/-- Witness for C9 at the spec's end-to-end example 4: `  - task: not-a-link`
as the whole input fails at line 1 with the targeted link diagnostic. -/
theorem c9_witness :
    runLines reset_state 1 [lit "  - task: not-a-link"] = .error (1, .taskLink) ∧
      ErrMsg.taskLink ≠ ErrMsg.taskOrRelease :=
  c9_malformed_task_targeted_diagnostic reset_state (lit "  - task: not-a-link") [] 1
    rfl rfl (by decide) (by decide)

/-- Source `n` copies of the literal ` []`, the iteration of the Python pattern
fragment `( \[\])*`. -/
def brackets : Nat → List Char
  | 0 => []
  | n + 1 => lit " []" ++ brackets n

theorem bracketSeq_iff {fuel : Nat} {r : List Char} (hf : r.length ≤ fuel) :
    bracketSeq fuel r = true ↔ ∃ n, r = brackets n := by
  induction fuel generalizing r with
  | zero =>
    have : r = [] := by
      cases r with
      | nil => rfl
      | cons c cs => simp at hf
    subst this
    simp [bracketSeq]
    exact ⟨0, rfl⟩
  | succ fuel ih =>
    cases r with
    | nil =>
      simp [bracketSeq]
      exact ⟨0, rfl⟩
    | cons c cs =>
      rw [show bracketSeq (fuel + 1) (c :: cs) =
          (match dropLit (lit " []") (c :: cs) with
           | some r2 => bracketSeq fuel r2
           | none => false) from rfl]
      cases hd : dropLit (lit " []") (c :: cs) with
      | none =>
        simp only [iff_false, false_iff, Bool.false_eq_true]
        rintro ⟨n, hn⟩
        cases n with
        | zero => simp [brackets] at hn
        | succ m =>
          rw [show brackets (m + 1) = lit " []" ++ brackets m from rfl] at hn
          rw [hn, dropLit_of_append] at hd
          simp at hd
      | some r2 =>
        have hcs : c :: cs = lit " []" ++ r2 := dropLit_some hd
        have hlen : r2.length ≤ fuel := by
          have h3 : (c :: cs).length = 3 + r2.length := by
            rw [hcs]
            simp [lit]
            omega
          simp only [List.length_cons] at h3 hf
          omega
        rw [ih hlen]
        constructor
        · rintro ⟨n, rfl⟩
          exact ⟨n + 1, by rw [hcs]; rfl⟩
        · rintro ⟨n, hn⟩
          cases n with
          | zero => rw [hn] at hcs; simp [brackets, lit] at hcs
          | succ m =>
            refine ⟨m, ?_⟩
            rw [hn] at hcs
            rw [show brackets (m + 1) = lit " []" ++ brackets m from rfl] at hcs
            exact List.append_cancel_left hcs.symm

/-- C7 (amended): a line is classified as a dependencies field exactly when
it is `    dependencies:` followed by zero or more copies of ` []` — the
Python pattern repeats the ` []` group, so repeated suffixes are accepted
too. -/
theorem c7_dependencies_classification (s : List Char) :
    matchDeps s = true ↔ ∃ n, s = lit "    dependencies:" ++ brackets n := by
  unfold matchDeps
  cases hd : dropLit (lit "    dependencies:") s with
  | none =>
    simp only [false_iff, Bool.false_eq_true]
    rintro ⟨n, rfl⟩
    rw [dropLit_of_append] at hd
    simp at hd
  | some r =>
    obtain rfl := dropLit_some hd
    rw [bracketSeq_iff (Nat.le_succ r.length)]
    constructor
    · rintro ⟨n, rfl⟩
      exact ⟨n, rfl⟩
    · rintro ⟨n, hn⟩
      exact ⟨n, List.append_cancel_left hn⟩

/-- C7 counterexample: the line `    dependencies: [] []`, with the ` []`
suffix repeated, is classified as a dependencies field, although it is
neither of the two lines the claim allows. -/
theorem c7_counterexample :
    matchDeps (lit "    dependencies: [] []") = true ∧
    lit "    dependencies: [] []" ≠ lit "    dependencies:" ∧
    lit "    dependencies: [] []" ≠ lit "    dependencies: []" :=
  ⟨by decide, by decide, by decide⟩

/-- Witness for C7: both directions of the amended classification at the
repeated-suffix line. -/
theorem c7_witness :
    ∃ n, lit "    dependencies: [] []" = lit "    dependencies:" ++ brackets n :=
  (c7_dependencies_classification (lit "    dependencies: [] []")).mp (by decide)

theorem setArch_eq {s : ParserState} (h : s.arch = true) : { s with arch := true } = s := by
  cases s
  simp_all

theorem setType_eq {s : ParserState} (h : s.type = true) : { s with type := true } = s := by
  cases s
  simp_all

/-- C2 counterexample: a run that is in the task `InDescription` sub-state
after five lines then reads another architecture line — which is neither a
six-space description continuation nor a blank separator — and the whole run
succeeds with no diagnostic, the state unchanged and the block still open. -/
theorem c2_counterexample :
    parse_yaml [lit "1:", lit "  - task: http://t", lit "    arch: stm32",
      lit "    feature: |", lit "      x", lit "    arch: stm32"] =
      .ok ⟨true, true, true, true, true, false, false, false, false, false⟩ ∧
    matchArch (lit "    arch: stm32") = true ∧
    matchDescCont (lit "    arch: stm32") = false ∧
    matchSep (lit "    arch: stm32") = false :=
  ⟨by rfl, by decide, by decide, by decide⟩

/-- C2 (amended): in the task `InDescription` sub-state, a six-space
description continuation keeps the state unchanged; a blank line closes the
block back to `Undetermined`; any other line produces the description
diagnostic — except that an architecture line or a type line is silently
re-accepted with the state unchanged, and a major-version marker line is
silently accepted (only setting the major-version flag), the block staying
open in each of these three cases. -/
theorem c2_in_description_behavior (s : ParserState) (l : List Char)
    (hT : s.task = true) (hA : s.arch = true) (hTy : s.type = true)
    (hD : s.description = true) :
    (matchDescCont l = true → parse_line s l = .ok s) ∧
    parse_line s [] = .ok reset_state ∧
    (matchDescCont l = false → matchSep l = false → matchMajor l = false →
      matchArch l = false → matchTaskType l = false →
      parse_line s l = .error .descriptionLine) ∧
    (matchArch l = true → parse_line s l = .ok s) ∧
    (matchTaskType l = true → parse_line s l = .ok s) ∧
    (matchMajor l = true → parse_line s l = .ok { s with major_ver := true } ∧
      ({ s with major_ver := true } : ParserState).task = true) := by
  refine ⟨?_, step_sep_task hT hA hTy hD, ?_, ?_, ?_, ?_⟩
  · intro h
    exact step_descCont_task hT hA hTy hD h
  · intro hc hs hm ha hty
    have hdi : matchDescInit l = false := by
      cases h' : matchDescInit l with
      | false => rfl
      | true => simp [matchDescInit_cont h'] at hc
    simp [parse_line, parse_task, hm, hs, ha, hty, hdi, hc, hT, hA, hTy, hD]
  · intro h
    rw [step_arch hT h, setArch_eq hA]
  · intro h
    rw [step_type_task hT hA h, setType_eq hTy]
  · intro h
    exact ⟨by simp [parse_line, h], hT⟩

/-- Witness for C2 at the `InDescription` state reached by the
counterexample run: a continuation keeps the state, a blank closes, a date
line gets the description diagnostic, and an architecture line is silently
accepted. -/
theorem c2_witness :
    parse_line ⟨true, true, true, true, true, false, false, false, false, false⟩
      (lit "      more words") =
      .ok ⟨true, true, true, true, true, false, false, false, false, false⟩ ∧
    parse_line ⟨true, true, true, true, true, false, false, false, false, false⟩ [] =
      .ok reset_state ∧
    parse_line ⟨true, true, true, true, true, false, false, false, false, false⟩
      (lit "    date: 01.02.24") = .error .descriptionLine ∧
    parse_line ⟨true, true, true, true, true, false, false, false, false, false⟩
      (lit "    arch: stm32") =
      .ok ⟨true, true, true, true, true, false, false, false, false, false⟩ :=
  ⟨(c2_in_description_behavior _ (lit "      more words") rfl rfl rfl rfl).1 (by decide),
    (c2_in_description_behavior _ (lit "      more words") rfl rfl rfl rfl).2.1,
    (c2_in_description_behavior _ (lit "    date: 01.02.24") rfl rfl rfl rfl).2.2.1
      (by decide) (by decide) (by decide) (by decide) (by decide),
    (c2_in_description_behavior _ (lit "    arch: stm32") rfl rfl rfl rfl).2.2.2.1
      (by decide)⟩

theorem ind4_struct {s : List Char} (h : ind4 s = true) :
    ∃ c cs, s = lit "    " ++ c :: cs ∧ isNonSpace c = true := by
  unfold ind4 at h
  cases hd : dropLit (lit "    ") s with
  | none => rw [hd] at h; simp at h
  | some r =>
    cases r with
    | nil => rw [hd] at h; simp at h
    | cons c cs =>
      rw [hd] at h
      exact ⟨c, cs, dropLit_some hd, h⟩

/-- C6 counterexample: a full run in which, after the dependencies line has
already been satisfied, a base line and then a second base line are both
silently accepted and the whole stream validates successfully. -/
theorem c6_counterexample :
    parse_yaml [lit "1:", lit "  - release: 7", lit "    date: 01.02.24",
      lit "    dependencies:", lit "    base: 5", lit "    base: 6",
      lit "    protocol: 3", []] =
      .ok ⟨true, false, false, false, false, false, false, false, false, false⟩ ∧
    matchBase (lit "    base: 5") = true ∧ matchBase (lit "    base: 6") = true :=
  ⟨by rfl, by decide, by decide⟩

/-- C6 (amended): inside a release block with the date satisfied, a base
line is accepted unconditionally — before or after the dependencies line,
and any number of times (the base flag is simply set again); a line that is
none of a date, dependencies or base line and that passes the indentation
gate (four-space indent or blank), arriving before dependencies is
satisfied, produces the diagnostic demanding the dependencies field. -/
theorem c6_base_and_missing_dependencies (s : ParserState) (l : List Char)
    (hT : s.task = false) (hR : s.release = true) (hDa : s.date = true) :
    (matchBase l = true → parse_line s l = .ok { s with base := true }) ∧
    (s.dependencies = false → s.type = false → matchDate l = false →
      matchDeps l = false → matchBase l = false →
      (ind4 l = true ∨ matchSep l = true) →
      parse_line s l = .error .dependenciesField) := by
  constructor
  · intro h
    exact step_base hT hR hDa h
  · intro hDe hTy hd hdp hb hgate
    rcases hgate with hi | hsep
    · obtain ⟨c, cs, rfl, -⟩ := ind4_struct hi
      have hm : matchMajor (lit "    " ++ c :: cs) = false := rfl
      simp [parse_line, parse_release, hm, hi, hd, hdp, hb, hT, hR, hDa, hDe, hTy]
    · have : l = [] := by simpa [matchSep, List.isEmpty_iff] using hsep
      subst this
      simp +decide [parse_line, parse_release, hT, hR, hDa, hDe, hTy]

/-- Witness for C6: a base line is accepted in a state where dependencies
and base are already satisfied, and a protocol line before dependencies gets
the dependencies diagnostic. -/
theorem c6_witness :
    parse_line ⟨true, false, false, false, false, true, true, true, true, false⟩
      (lit "    base: 6") =
      .ok ⟨true, false, false, false, false, true, true, true, true, false⟩ ∧
    parse_line ⟨true, false, false, false, false, true, true, false, false, false⟩
      (lit "    protocol: 3") = .error .dependenciesField :=
  ⟨(c6_base_and_missing_dependencies
      ⟨true, false, false, false, false, true, true, true, true, false⟩
      (lit "    base: 6") rfl rfl rfl).1 (by decide),
    (c6_base_and_missing_dependencies
      ⟨true, false, false, false, false, true, true, false, false, false⟩
      (lit "    protocol: 3") rfl rfl rfl).2 rfl rfl (by decide) (by decide) (by decide)
      (Or.inl (by decide))⟩

/-- C8: inside a task or release block, while the type flag is not yet set
(the structural positions that demand a four-space indent), a non-blank,
non-major-marker line whose leading whitespace fails the four-space test is
diagnosed as an indentation violation at exactly that line — before any
field-specific check, whatever the rest of the line contains. -/
theorem c8_indentation_violation_diagnosed (s : ParserState) (l : List Char)
    (hMode : s.task = true ∨ s.release = true) (hTy : s.type = false)
    (hi : ind4 l = false) (hs : matchSep l = false) (hm : matchMajor l = false) :
    parse_line s l = .error .fourSpacesIndent ∧
    ∀ (rest : List (List Char)) (n : Nat),
      runLines s n (l :: rest) = .error (n, .fourSpacesIndent) := by
  have hmain : parse_line s l = .error .fourSpacesIndent := by
    rcases hMode with hT | hR
    · simp [parse_line, parse_task, hm, hi, hs, hT, hTy]
    · by_cases hT : s.task = true
      · simp [parse_line, parse_task, hm, hi, hs, hT, hTy]
      · simp only [Bool.not_eq_true] at hT
        simp [parse_line, parse_release, hm, hi, hs, hT, hR, hTy]
  exact ⟨hmain, fun rest n => runLines_cons_err hmain⟩

/-- Witness for C8: a three-space architecture line inside a task block and
a five-space date line inside a release block both get the indentation
diagnostic at their own line number. -/
theorem c8_witness :
    runLines ⟨true, true, false, false, false, false, false, false, false, false⟩ 3
      [lit "   arch: stm32"] = .error (3, .fourSpacesIndent) ∧
    runLines ⟨true, false, false, false, false, true, false, false, false, false⟩ 3
      [lit "     date: 01.02.24"] = .error (3, .fourSpacesIndent) :=
  ⟨(c8_indentation_violation_diagnosed
      ⟨true, true, false, false, false, false, false, false, false, false⟩
      (lit "   arch: stm32") (Or.inl rfl) rfl (by decide) (by decide) (by decide)).2 [] 3,
    (c8_indentation_violation_diagnosed
      ⟨true, false, false, false, false, true, false, false, false, false⟩
      (lit "     date: 01.02.24") (Or.inr rfl) rfl (by decide) (by decide) (by decide)).2 [] 3⟩

/-- Source `parse_task` never touches the task or release flag except through the
full `reset_state`. -/
theorem parse_task_flags {s : ParserState} {l : List Char} {s2 : ParserState}
    (h : parse_task s l = .ok s2) :
    (s2.task = s.task ∧ s2.release = s.release) ∨ s2 = reset_state := by
  obtain ⟨mv, t, a, ty, d, r, da, de, ba, pr⟩ := s
  simp only [parse_task] at h
  split_ifs at h
  all_goals
    first
      | (simp only [Except.ok.injEq] at h
         subst h
         simp [reset_state])
      | simp at h

/-- Source `release_tail` never sets the task flag and only ever clears the
release flag. -/
theorem release_tail_flags {s1 : ParserState} {l : List Char} {s2 : ParserState}
    (h : release_tail s1 l = .ok s2) :
    s2.task = s1.task ∧ (s2.release = s1.release ∨ s2.release = false) := by
  obtain ⟨mv, t, a, ty, d, r, da, de, ba, pr⟩ := s1
  simp only [release_tail, reset_release_state] at h
  split_ifs at h
  all_goals
    first
      | (simp only [Except.ok.injEq] at h
         subst h
         simp)
      | simp at h

set_option maxHeartbeats 800000 in
/-- Source `parse_release` never sets the task flag and only ever clears the
release flag. -/
theorem parse_release_flags {s : ParserState} {l : List Char} {s2 : ParserState}
    (h : parse_release s l = .ok s2) :
    s2.task = s.task ∧ (s2.release = s.release ∨ s2.release = false) := by
  obtain ⟨mv, t, a, ty, d, r, da, de, ba, pr⟩ := s
  simp only [parse_release] at h
  split_ifs at h
  all_goals
    first
      | (simp only [Except.ok.injEq] at h
         subst h
         simp)
      | simp at h
      | (obtain ⟨h1, h2⟩ := release_tail_flags h
         constructor
         · rw [h1]
           try simp [reset_release_state]
         · rcases h2 with h2 | h2 <;> rw [h2] <;> simp [reset_release_state])

/-- Source `parse_initial` runs only with both flags clear and sets at most one of
them. -/
theorem parse_initial_flags {s : ParserState} {l : List Char} {s2 : ParserState}
    (h : parse_initial s l = .ok s2) (hT : s.task = false) (hR : s.release = false) :
    ¬(s2.task = true ∧ s2.release = true) := by
  obtain ⟨mv, t, a, ty, d, r, da, de, ba, pr⟩ := s
  replace hT : t = false := hT
  replace hR : r = false := hR
  subst hT
  subst hR
  simp only [parse_initial, validate_initial] at h
  split_ifs at h
  all_goals
    first
      | (simp only [Except.ok.injEq] at h
         subst h
         simp)
      | simp at h

/-- One `parse_line` step preserves mutual exclusion of the task and release
flags. -/
theorem parse_line_excl {s : ParserState} {l : List Char} {s2 : ParserState}
    (h : parse_line s l = .ok s2)
    (hinv : ¬(s.task = true ∧ s.release = true)) :
    ¬(s2.task = true ∧ s2.release = true) := by
  simp only [parse_line] at h
  split_ifs at h with h1 h2 h3
  · simp only [Except.ok.injEq] at h
    subst h
    simpa using hinv
  · simp only [Bool.and_eq_true, Bool.not_eq_true'] at h2
    exact parse_initial_flags h h2.1 h2.2
  · rcases parse_task_flags h with ⟨ht, hr⟩ | rfl
    · rw [ht, hr]
      exact hinv
    · simp [reset_state]
  · obtain ⟨ht, hr⟩ := parse_release_flags h
    rcases hr with hr | hr
    · rw [ht, hr]
      exact hinv
    · rw [ht, hr]
      simp

/-- A whole run of the driver loop preserves mutual exclusion of the task
and release flags. -/
theorem runLines_excl (input : List (List Char)) :
    ∀ {s : ParserState} {n : Nat} {s2 : ParserState}, runLines s n input = .ok s2 →
      ¬(s.task = true ∧ s.release = true) → ¬(s2.task = true ∧ s2.release = true) := by
  induction input with
  | nil =>
    intro s n s2 h hinv
    simp only [runLines, Except.ok.injEq] at h
    subst h
    exact hinv
  | cons l ls ih =>
    intro s n s2 h hinv
    simp only [runLines] at h
    cases hp : parse_line s l with
    | error e => rw [hp] at h; simp at h
    | ok s3 =>
      rw [hp] at h
      exact ih h (parse_line_excl hp hinv)

/-- C10: the task flag and the release flag are never both set — the fresh
state satisfies the exclusion, every accepted `parse_line` step preserves
it, and hence every state reachable by a successful driver run satisfies
it. -/
theorem c10_modes_mutually_exclusive :
    ¬(reset_state.task = true ∧ reset_state.release = true) ∧
    (∀ (s : ParserState) (l : List Char) (s2 : ParserState), parse_line s l = .ok s2 →
      ¬(s.task = true ∧ s.release = true) → ¬(s2.task = true ∧ s2.release = true)) ∧
    (∀ (input : List (List Char)) (s2 : ParserState), parse_yaml input = .ok s2 →
      ¬(s2.task = true ∧ s2.release = true)) :=
  ⟨by decide, fun _ _ _ h hinv => parse_line_excl h hinv,
    fun input _ h => runLines_excl input h (by decide)⟩

/-- Witness for C10: one concrete accepted step (opening a task block from
the fresh state) lands in a state satisfying the exclusion. -/
theorem c10_witness :
    ¬((⟨false, true, false, false, false, false, false, false, false, false⟩ : ParserState).task
        = true ∧
      (⟨false, true, false, false, false, false, false, false, false, false⟩ : ParserState).release
        = true) :=
  c10_modes_mutually_exclusive.2.1 reset_state (lit "  - task: http://x")
    ⟨false, true, false, false, false, false, false, false, false, false⟩ (by rfl) (by decide)
